import Mathlib

/-!
Verification of the Mandelbrot WebGL viewer

Shallow embedding of the core of the `lwwch/mandelbrot` repository
(file `src/unnamed/part_000`, the current revision of `main.js`):

* the escape-iteration fragment shader (`fragment_shader_source`),
* the `Matrix` class and the MVP construction in `mandelbrot_draw`,
* the navigation state machine (`init_mandelbrot_program` state plus the
  `mouse_down` / `mouse_up` / `mouse_move` / `key_down` / `key_up` /
  `touch_start` / `touch_move` / `touch_end` handlers),
* the redraw-request behaviour built on the host's `requestAnimationFrame`.

Numbers of the JavaScript source (IEEE doubles / GLSL floats) are idealised
as elements of an arbitrary linear ordered field `α`; the transcendental
functions `sqrt` and `log` used by the source are passed in as explicit
function parameters, so every theorem below holds for the real square root
and logarithm in particular, and concrete runs can be evaluated over `ℚ`.
A handler that throws a JavaScript `TypeError` (reading a property of
`undefined`) is embedded as returning `none`; since the source performs no
state mutation before any such read, the pre-event state is exactly the
state at the throw.
-/

namespace MandelbrotApp

variable {α : Type} [LinearOrderedField α]

/-- Source `function magnitude(x, y) { return Math.sqrt(x*x + y*y); }`
(part_000 lines 8-10); the host square root is the parameter `sqrt`. -/
def magnitude (sqrt : α → α) (x y : α) : α :=
  sqrt (x * x + y * y)

/-- Source `var ZOOM_OUT_LIMIT = 0.001;` (part_000 line 12). -/
def ZOOM_OUT_LIMIT : α := 0.001

/-- Source `var PAN_LIMIT = 1.0 / ZOOM_OUT_LIMIT;` (part_000 line 13). -/
def PAN_LIMIT : α := 1 / ZOOM_OUT_LIMIT

/-- Source `function panlimit(v)` (part_000 lines 14-18): clamp `v` to
`[-PAN_LIMIT, PAN_LIMIT]`. -/
def panlimit (v : α) : α :=
  if v > PAN_LIMIT then PAN_LIMIT
  else if v < -PAN_LIMIT then -PAN_LIMIT
  else v

/-! Section: The fragment shader (part_000 lines 96-136) -/

/-- Source `const int MAX = 1024;` (shader source, line 112). -/
def MAX : Nat := 1024

/-- Source `const float ESCAPE = 1e3;` (shader source, line 113). -/
def ESCAPE : α := 1000

/-- The shader's escape loop (lines 115-124), with the remaining loop
passes as fuel.  Each pass computes
`new_x = z.x*z.x - z.y*z.y + c.x`, `z.y = 2.0*z.x*z.y + c.y`,
`z.x = new_x`, breaks when `z.x*z.x + z.y*z.y >= ESCAPE`, and otherwise
increments `iterations`.  Returns `(iterations, z.x, z.y)` at loop exit. -/
def mandelLoop (cx cy : α) : α → α → Nat → Nat → Nat × α × α
  | x, y, iterations, 0 => (iterations, x, y)
  | x, y, iterations, fuel + 1 =>
    let nx := x * x - y * y + cx
    let ny := 2 * x * y + cy
    if nx * nx + ny * ny ≥ ESCAPE then (iterations, nx, ny)
    else mandelLoop cx cy nx ny (iterations + 1) fuel

/-- The whole escape loop of the shader: `vec2 z = vec2(0, 0)`,
`int iterations = 0`, `for (int i = 0; i < MAX; ++i)` (lines 111-124). -/
def mandelbrot (cx cy : α) : Nat × α × α :=
  mandelLoop cx cy 0 0 0 MAX

/-- An RGBA colour, the value written to `gl_FragColor`. -/
def Color (β : Type) : Type := β × β × β × β

/-- The body of the shader's `main` after the loop (lines 126-134).
`ramp` embeds `texture2D(colors, vec2(p, 0.5))` as a function of the
sampling position `p`; `sqrt` and `log` are the host's `sqrt` (inside
GLSL `length`) and `log`.  The escaped branch computes
`logzn = log(length(z)) / 2.0`, `smoothed = log(logzn/log(2.0))/log(2.0)`,
`index = float(iterations) + 1.0 - smoothed`, and samples the ramp at
`index * 5.0 / float(MAX)`. -/
def fragment_shader (sqrt log : α → α) (ramp : α → Color α) (cx cy : α) :
    Color α :=
  let r := mandelbrot cx cy
  let iterations := r.1
  let zx := r.2.1
  let zy := r.2.2
  if iterations = MAX then (0, 0, 0, 1)
  else
    let logzn := log (magnitude sqrt zx zy) / 2
    let smoothed := log (logzn / log 2) / log 2
    let index := (iterations : α) + 1 - smoothed
    ramp (index * 5 / (MAX : α))

/-! Section: The coloring policy in the words of the specification

These definitions follow the sentences of the spec (sections 4.3 and 8)
and are compared with the source embedding `fragment_shader` in claim C3. -/

/-- Spec: `MAX_ITER = 1024`. -/
def MAX_ITER : Nat := 1024

/-- Spec: `|z|`, the magnitude of the iterate at loop exit; the square root
function of the host is the parameter `sqrt` (instantiated with `Real.sqrt`
in the theorems). -/
def abs_z (sqrt : α → α) (zx zy : α) : α := sqrt (zx ^ 2 + zy ^ 2)

/-- Spec: `logzn = log(|z|) / 2`. -/
def logzn_spec (sqrt log : α → α) (zx zy : α) : α :=
  log (abs_z sqrt zx zy) / 2

/-- Spec: `smoothed = log(logzn / log 2) / log 2`. -/
def smoothed_spec (sqrt log : α → α) (zx zy : α) : α :=
  log (logzn_spec sqrt log zx zy / log 2) / log 2

/-- Spec: `paletteIndex = iterations + 1 - smoothed`. -/
def paletteIndex_spec (sqrt log : α → α) (iterations : Nat) (zx zy : α) : α :=
  (iterations : α) + 1 - smoothed_spec sqrt log zx zy

/-- Spec (claim C3 wording): interior points are opaque black; otherwise the
ColorRamp is sampled at normalized position `paletteIndex * 5 / MAX_ITER`. -/
def pixelColor_spec (sqrt log : α → α) (ramp : α → Color α) (cx cy : α) :
    Color α :=
  let r := mandelbrot cx cy
  if r.1 = MAX_ITER then (0, 0, 0, 1)
  else ramp (paletteIndex_spec sqrt log r.1 r.2.1 r.2.2 * 5 / (MAX_ITER : α))

/-! Section: The `Matrix` class and the MVP construction (part_000 lines 20-82,
280-283)

The source stores a 4x4 matrix row-major in `this._data`; `multiply(m)`
replaces it by `into[(r*4)+c] = sum_i A[(r*4)+i] * X[(i*4)+c]`, which is
exactly `A * X` for the row-major reading, so the class is embedded as a
`Matrix (Fin 4) (Fin 4) α` and `multiply` as matrix multiplication. -/

/-- Source `new Matrix()` with `buf` omitted: the identity buffer
(part_000 lines 21-29). -/
def Matrix_default : Matrix (Fin 4) (Fin 4) α :=
  !![1, 0, 0, 0;
     0, 1, 0, 0;
     0, 0, 1, 0;
     0, 0, 0, 1]

/-- Source `Matrix.scale(z)` (lines 49-60): sets `z = 1.0 / z` and multiplies by
the buffer `[z,0,0,0, 0,z,0,0, 0,0,1,0, 0,0,0,1]`. -/
def Matrix_scale (m : Matrix (Fin 4) (Fin 4) α) (z : α) :
    Matrix (Fin 4) (Fin 4) α :=
  m * !![1 / z, 0, 0, 0;
         0, 1 / z, 0, 0;
         0, 0, 1, 0;
         0, 0, 0, 1]

/-- Source `Matrix.translate(x, y)` (lines 70-77): multiplies by the buffer
`[1,0,0,0, 0,1,0,0, 0,0,1,0, x,y,0,1]`. -/
def Matrix_translate (m : Matrix (Fin 4) (Fin 4) α) (x y : α) :
    Matrix (Fin 4) (Fin 4) α :=
  m * !![1, 0, 0, 0;
         0, 1, 0, 0;
         0, 0, 1, 0;
         x, y, 0, 1]

/-- Source `Matrix.orthographic(width, height)` (lines 62-68): multiplies by the
buffer `[2.0/height,0,0,0, 0,2.0/width,0,0, 0,0,1,0, 0,0,0,1]`. -/
def Matrix_orthographic (m : Matrix (Fin 4) (Fin 4) α) (width height : α) :
    Matrix (Fin 4) (Fin 4) α :=
  m * !![2 / height, 0, 0, 0;
         0, 2 / width, 0, 0;
         0, 0, 1, 0;
         0, 0, 0, 1]

/-- The MVP built by `mandelbrot_draw` (lines 280-283):
`var mvp = new Matrix(); mvp.scale(app.zoom);
mvp.translate(app.offset.x, app.offset.y);
mvp.orthographic(gl.drawingBufferWidth, gl.drawingBufferHeight);`. -/
def mandelbrot_draw_mvp (zoom offsetX offsetY bufferWidth bufferHeight : α) :
    Matrix (Fin 4) (Fin 4) α :=
  Matrix_orthographic
    (Matrix_translate (Matrix_scale Matrix_default zoom) offsetX offsetY)
    bufferWidth bufferHeight

/-! Section: The MVP in the words of the specification (section 4.1, claim C6) -/

/-- Spec: "apply scale by `1/zoom` uniformly on x and y". -/
def scale_spec (zoom : α) : Matrix (Fin 4) (Fin 4) α :=
  !![1 / zoom, 0, 0, 0;
     0, 1 / zoom, 0, 0;
     0, 0, 1, 0;
     0, 0, 0, 1]

/-- Spec: "apply translation by `(offsetX, offsetY)`". -/
def translate_spec (offsetX offsetY : α) : Matrix (Fin 4) (Fin 4) α :=
  !![1, 0, 0, 0;
     0, 1, 0, 0;
     0, 0, 1, 0;
     offsetX, offsetY, 0, 1]

/-- Spec: "an orthographic projection matrix with diagonal terms
`2/viewportHeight` (x-axis) and `2/viewportWidth` (y-axis)". -/
def ortho_spec (viewportWidth viewportHeight : α) :
    Matrix (Fin 4) (Fin 4) α :=
  !![2 / viewportHeight, 0, 0, 0;
     0, 2 / viewportWidth, 0, 0;
     0, 0, 1, 0;
     0, 0, 0, 1]

/-- Spec: "start from identity", then right-multiply the scale, the
translation and the orthographic matrix in that order. -/
def computeMVP_spec (offsetX offsetY zoom viewportWidth viewportHeight : α) :
    Matrix (Fin 4) (Fin 4) α :=
  ((1 * scale_spec zoom) * translate_spec offsetX offsetY) *
    ortho_spec viewportWidth viewportHeight

/-! Section: The navigation state machine (part_000 lines 239-257, 315-403)

The session state of `init_mandelbrot_program` is flattened:
`offset.x / offset.y` become `offsetX / offsetY`, `mouse.down` becomes
`mouseDown`, `mouse.last.x / mouse.last.y` become `lastX / lastY`,
`pinch.down / pinch.distance` become `pinchDown / pinchDistance`, and
`keys.shift` becomes `shift`.  The canvas size
(`gl.drawingBufferWidth/Height`) is carried as the parameters `W`, `H`.
An event handler that dereferences a missing touch (a JavaScript
`TypeError` on `undefined`) returns `none`; the source mutates nothing
before any such dereference. -/

/-- The mutable session state created by `init_mandelbrot_program`
(lines 239-257). -/
structure AppState (β : Type) where
  offsetX : β
  offsetY : β
  zoom : β
  mouseDown : Bool
  lastX : β
  lastY : β
  pinchDown : Bool
  pinchDistance : β
  shift : Bool
  deriving DecidableEq

/-- The initial state (lines 239-257): `offset = {x:0, y:0}`,
`zoom = 0.001`, `mouse = {down:false, last:{x:0, y:0}}`,
`pinch = {down:false, distance:0.0}`, `keys = {shift:false}`. -/
def init_state : AppState α :=
  { offsetX := 0, offsetY := 0, zoom := 0.001, mouseDown := false,
    lastX := 0, lastY := 0, pinchDown := false, pinchDistance := 0,
    shift := false }

/-- Handler `mouse_down(e)` (lines 315-320). -/
def mouse_down (s : AppState α) (x y : α) : AppState α :=
  { s with mouseDown := true, lastX := x, lastY := y }

/-- Handler `mouse_up(e)` (lines 322-325), also bound to `mouseleave`. -/
def mouse_up (s : AppState α) : AppState α :=
  { s with mouseDown := false }

/-- Handler `mouse_move(e)` (lines 327-348) at canvas size `W`, `H`:
if the pointer is down, compute `dx`, `dy`,
`scale = 2.0 / zoom / drawingBufferWidth`,
`ar = drawingBufferWidth / drawingBufferHeight`; with the modifier held
update `zoom = max(z - (z * dy * 0.01), ZOOM_OUT_LIMIT)`, otherwise pan
`offset.x = panlimit(offset.x - dx * scale)`,
`offset.y = panlimit(offset.y + dy * scale * ar)`; in every case record
the pointer position in `mouse.last`. -/
def mouse_move (W H : α) (s : AppState α) (ex ey : α) : AppState α :=
  let s1 :=
    if s.mouseDown then
      let dx := ex - s.lastX
      let dy := ey - s.lastY
      let scale := 2 / s.zoom / W
      let ar := W / H
      if s.shift then
        { s with zoom := max (s.zoom - s.zoom * dy * 0.01) ZOOM_OUT_LIMIT }
      else
        { s with offsetX := panlimit (s.offsetX - dx * scale),
                 offsetY := panlimit (s.offsetY + dy * scale * ar) }
    else s
  { s1 with lastX := ex, lastY := ey }

/-- Handler `key_down(e)` (lines 350-352): `keys.shift = e.altKey`. -/
def key_down (s : AppState α) (altKey : Bool) : AppState α :=
  { s with shift := altKey }

/-- Handler `key_up(e)` (lines 354-356): `keys.shift = e.shiftKey`. -/
def key_up (s : AppState α) (shiftKey : Bool) : AppState α :=
  { s with shift := shiftKey }

/-- Handler `touch_start(e)` (lines 358-375).  One touch starts a pan gesture, two
touches start a pinch gesture and record the touch distance, any other
touch count leaves the state unchanged. -/
def touch_start (sqrt : α → α) (s : AppState α) (touches : List (α × α)) :
    AppState α :=
  match touches with
  | [t0] =>
    { s with mouseDown := true, pinchDown := false,
             lastX := t0.1, lastY := t0.2 }
  | [t0, t1] =>
    { s with pinchDown := true, mouseDown := false,
             pinchDistance := magnitude sqrt (t1.1 - t0.1) (t1.2 - t0.2) }
  | _ => s

/-- Handler `touch_move(e)` (lines 378-397).  With the pan flag set it forwards
`touches[0]` to `mouse_move` (dereferencing `e.touches[0]` of an empty
touch list throws); with the pinch flag set it reads `touches[0]` and
`touches[1]` (throwing when fewer than two are present), records the new
pinch distance and updates
`zoom = max(z - (z * -delta * 0.01), ZOOM_OUT_LIMIT)` where
`delta = distance - last_distance`; otherwise it does nothing. -/
def touch_move (sqrt : α → α) (W H : α) (s : AppState α)
    (touches : List (α × α)) : Option (AppState α) :=
  if s.mouseDown then
    match touches with
    | t0 :: _ => some (mouse_move W H s t0.1 t0.2)
    | [] => none
  else if s.pinchDown then
    match touches with
    | t0 :: t1 :: _ =>
      let d := magnitude sqrt (t1.1 - t0.1) (t1.2 - t0.2)
      let delta := d - s.pinchDistance
      some { s with pinchDistance := d,
                    zoom := max (s.zoom - s.zoom * (-delta) * 0.01)
                              ZOOM_OUT_LIMIT }
    | _ => none
  else some s

/-- Handler `touch_end(e)` (lines 399-403), also bound to `touchcancel`. -/
def touch_end (s : AppState α) : AppState α :=
  { s with mouseDown := false, pinchDown := false }

/-- The input events delivered to the handlers (part_000 lines 405-415). -/
inductive Ev (β : Type) where
  | mouseDown (x y : β)
  | mouseUp
  | mouseMove (x y : β)
  | keyDown (altKey : Bool)
  | keyUp (shiftKey : Bool)
  | touchStart (touches : List (β × β))
  | touchMove (touches : List (β × β))
  | touchEnd

/-- Dispatch of one input event to its handler; `none` records a thrown
`TypeError` (the state at the throw is the pre-event state, since the
handlers mutate nothing before the faulting dereference). -/
def step (sqrt : α → α) (W H : α) (s : AppState α) : Ev α → Option (AppState α)
  | .mouseDown x y => some (mouse_down s x y)
  | .mouseUp => some (mouse_up s)
  | .mouseMove x y => some (mouse_move W H s x y)
  | .keyDown altKey => some (key_down s altKey)
  | .keyUp shiftKey => some (key_up s shiftKey)
  | .touchStart touches => some (touch_start sqrt s touches)
  | .touchMove touches => touch_move sqrt W H s touches
  | .touchEnd => some (touch_end s)

/-- Run a finite sequence of input events from a state, stopping at a
thrown exception. -/
def run (sqrt : α → α) (W H : α) (s : AppState α) : List (Ev α) →
    Option (AppState α)
  | [] => some s
  | e :: es =>
    match step sqrt W H s e with
    | none => none
    | some s1 => run sqrt W H s1 es

/-- Whether an event is a mouse-down event. -/
def Ev.isMouseDown : Ev α → Bool
  | .mouseDown _ _ => true
  | _ => false

/-! Section: The redraw request (part_000 lines 300-302, 319, 324, 344, 374, 396)

Every state-changing handler calls `requestAnimationFrame(render)`, where
`render` performs one `mandelbrot_draw`.  `requestAnimationFrame` is the
host browser's primitive; per the HTML standard it appends its callback to
the document's list of animation frame callbacks, and at the next frame
opportunity the host runs every callback in that list once and empties it.
The pending-callback list is embedded as a count of registered `render`
callbacks. -/

/-- One `requestAnimationFrame(render)` call: registers one more callback
for the next frame opportunity. -/
def requestRender (pending : Nat) : Nat := pending + 1

/-- Request counter `scheduleFrameN n`: `n` redraw requests issued within one frame
interval (before the next frame opportunity). -/
def scheduleFrameN : Nat → Nat → Nat
  | 0, pending => pending
  | n + 1, pending => scheduleFrameN n (requestRender pending)

/-- The number of `mandelbrot_draw` executions at the next frame
opportunity: the host invokes every registered callback once, and
`render(ts)` (lines 300-302) performs exactly one `mandelbrot_draw`. -/
def drawsAtNextFrame (pending : Nat) : Nat := pending

/-! Section: Helper lemmas -/

lemma ZOOM_OUT_LIMIT_pos : (0 : α) < ZOOM_OUT_LIMIT := by
  norm_num [ZOOM_OUT_LIMIT]

lemma PAN_LIMIT_eq : (PAN_LIMIT : α) = 1000 := by
  norm_num [PAN_LIMIT, ZOOM_OUT_LIMIT]

lemma abs_panlimit_le (v : α) : |panlimit v| ≤ PAN_LIMIT := by
  have hP : (0 : α) < PAN_LIMIT := by rw [PAN_LIMIT_eq]; norm_num
  unfold panlimit
  split_ifs with h1 h2
  · rw [abs_of_pos hP]
  · rw [abs_neg, abs_of_pos hP]
  · rw [abs_le]
    constructor <;> linarith

lemma mouse_move_zoom (W H : α) (s : AppState α) (ex ey : α)
    (hz : ZOOM_OUT_LIMIT ≤ s.zoom) :
    ZOOM_OUT_LIMIT ≤ (mouse_move W H s ex ey).zoom := by
  unfold mouse_move
  by_cases h1 : s.mouseDown <;> by_cases h2 : s.shift <;>
    simp only [h1, h2, if_true, if_false] <;>
    first
      | exact le_max_right _ _
      | exact hz

lemma step_zoom (sqrt : α → α) (W H : α) (s s' : AppState α) (e : Ev α)
    (h : step sqrt W H s e = some s') (hz : ZOOM_OUT_LIMIT ≤ s.zoom) :
    ZOOM_OUT_LIMIT ≤ s'.zoom := by
  cases e with
  | mouseDown x y =>
    simp only [step, Option.some.injEq] at h
    rw [← h]; simpa [mouse_down] using hz
  | mouseUp =>
    simp only [step, Option.some.injEq] at h
    rw [← h]; simpa [mouse_up] using hz
  | mouseMove x y =>
    simp only [step, Option.some.injEq] at h
    rw [← h]; exact mouse_move_zoom W H s x y hz
  | keyDown a =>
    simp only [step, Option.some.injEq] at h
    rw [← h]; simpa [key_down] using hz
  | keyUp k =>
    simp only [step, Option.some.injEq] at h
    rw [← h]; simpa [key_up] using hz
  | touchStart ts =>
    simp only [step, Option.some.injEq] at h
    rw [← h]
    unfold touch_start
    rcases ts with _ | ⟨t0, _ | ⟨t1, _ | _⟩⟩ <;> simpa using hz
  | touchMove ts =>
    unfold step touch_move at h
    split_ifs at h with h1 h2
    · rcases ts with _ | ⟨t0, rest⟩
      · exact absurd h (by simp)
      · simp only [Option.some.injEq] at h
        rw [← h]; exact mouse_move_zoom W H s t0.1 t0.2 hz
    · rcases ts with _ | ⟨t0, _ | ⟨t1, rest⟩⟩
      · exact absurd h (by simp)
      · exact absurd h (by simp)
      · simp only [Option.some.injEq] at h
        rw [← h]
        exact le_max_right _ _
    · simp only [Option.some.injEq] at h
      rw [← h]; exact hz
  | touchEnd =>
    simp only [step, Option.some.injEq] at h
    rw [← h]; simpa [touch_end] using hz

lemma run_zoom (sqrt : α → α) (W H : α) (s s' : AppState α)
    (es : List (Ev α)) (h : run sqrt W H s es = some s')
    (hz : ZOOM_OUT_LIMIT ≤ s.zoom) : ZOOM_OUT_LIMIT ≤ s'.zoom := by
  induction es generalizing s with
  | nil =>
    simp only [run, Option.some.injEq] at h
    rw [← h]; exact hz
  | cons e es ih =>
    unfold run at h
    cases hstep : step sqrt W H s e with
    | none => rw [hstep] at h; exact absurd h (by simp)
    | some s1 =>
      rw [hstep] at h
      exact ih s1 h (step_zoom sqrt W H s s1 e hstep hz)

lemma mouse_move_offset (W H : α) (s : AppState α) (ex ey : α)
    (hx : |s.offsetX| ≤ PAN_LIMIT) (hy : |s.offsetY| ≤ PAN_LIMIT) :
    |(mouse_move W H s ex ey).offsetX| ≤ PAN_LIMIT ∧
      |(mouse_move W H s ex ey).offsetY| ≤ PAN_LIMIT := by
  unfold mouse_move
  by_cases h1 : s.mouseDown <;> by_cases h2 : s.shift <;>
    simp only [h1, h2, if_true, if_false] <;>
    exact ⟨by first | exact abs_panlimit_le _ | exact hx,
           by first | exact abs_panlimit_le _ | exact hy⟩

lemma step_offset (sqrt : α → α) (W H : α) (s s' : AppState α) (e : Ev α)
    (h : step sqrt W H s e = some s')
    (hx : |s.offsetX| ≤ PAN_LIMIT) (hy : |s.offsetY| ≤ PAN_LIMIT) :
    |s'.offsetX| ≤ PAN_LIMIT ∧ |s'.offsetY| ≤ PAN_LIMIT := by
  cases e with
  | mouseDown x y =>
    simp only [step, Option.some.injEq] at h
    rw [← h]; exact ⟨by simpa [mouse_down] using hx, by simpa [mouse_down] using hy⟩
  | mouseUp =>
    simp only [step, Option.some.injEq] at h
    rw [← h]; exact ⟨by simpa [mouse_up] using hx, by simpa [mouse_up] using hy⟩
  | mouseMove x y =>
    simp only [step, Option.some.injEq] at h
    rw [← h]; exact mouse_move_offset W H s x y hx hy
  | keyDown a =>
    simp only [step, Option.some.injEq] at h
    rw [← h]; exact ⟨by simpa [key_down] using hx, by simpa [key_down] using hy⟩
  | keyUp k =>
    simp only [step, Option.some.injEq] at h
    rw [← h]; exact ⟨by simpa [key_up] using hx, by simpa [key_up] using hy⟩
  | touchStart ts =>
    simp only [step, Option.some.injEq] at h
    rw [← h]
    unfold touch_start
    rcases ts with _ | ⟨t0, _ | ⟨t1, _ | _⟩⟩ <;>
      exact ⟨by simpa using hx, by simpa using hy⟩
  | touchMove ts =>
    unfold step touch_move at h
    split_ifs at h with h1 h2
    · rcases ts with _ | ⟨t0, rest⟩
      · exact absurd h (by simp)
      · simp only [Option.some.injEq] at h
        rw [← h]; exact mouse_move_offset W H s t0.1 t0.2 hx hy
    · rcases ts with _ | ⟨t0, _ | ⟨t1, rest⟩⟩
      · exact absurd h (by simp)
      · exact absurd h (by simp)
      · simp only [Option.some.injEq] at h
        rw [← h]; exact ⟨by simpa using hx, by simpa using hy⟩
    · simp only [Option.some.injEq] at h
      rw [← h]; exact ⟨hx, hy⟩
  | touchEnd =>
    simp only [step, Option.some.injEq] at h
    rw [← h]; exact ⟨by simpa [touch_end] using hx, by simpa [touch_end] using hy⟩

lemma run_offset (sqrt : α → α) (W H : α) (s s' : AppState α)
    (es : List (Ev α)) (h : run sqrt W H s es = some s')
    (hx : |s.offsetX| ≤ PAN_LIMIT) (hy : |s.offsetY| ≤ PAN_LIMIT) :
    |s'.offsetX| ≤ PAN_LIMIT ∧ |s'.offsetY| ≤ PAN_LIMIT := by
  induction es generalizing s with
  | nil =>
    simp only [run, Option.some.injEq] at h
    rw [← h]; exact ⟨hx, hy⟩
  | cons e es ih =>
    unfold run at h
    cases hstep : step sqrt W H s e with
    | none => rw [hstep] at h; exact absurd h (by simp)
    | some s1 =>
      rw [hstep] at h
      obtain ⟨hx1, hy1⟩ := step_offset sqrt W H s s1 e hstep hx hy
      exact ih s1 h hx1 hy1

/-! Section: Claims -/

/-- Claim C4: starting from the initial session state (`zoom = 0.001`),
after any finite sequence of input events — in particular any sequence of
drag-zoom updates `zoom = max(zoom - zoom*dy*0.01, ZOOM_OUT_LIMIT)` and
pinch-zoom updates `zoom = max(zoom - zoom*(-delta)*0.01, ZOOM_OUT_LIMIT)`
— the zoom value is never below `ZOOM_OUT_LIMIT = 0.001`. -/
theorem C4_zoom_never_below_limit (sqrt : α → α) (W H : α)
    (es : List (Ev α)) (s : AppState α)
    (h : run sqrt W H init_state es = some s) :
    ZOOM_OUT_LIMIT ≤ s.zoom :=
  run_zoom sqrt W H init_state s es h (le_refl _)

/-- Witness for C4: a concrete event sequence over `ℚ`. -/
theorem C4_witness :
    run (id : ℚ → ℚ) 800 600 init_state
        [Ev.mouseDown 1 2, Ev.mouseUp, Ev.touchEnd] =
      some (touch_end (mouse_up (mouse_down init_state 1 2))) ∧
    ZOOM_OUT_LIMIT ≤
      (touch_end (mouse_up (mouse_down (init_state : AppState ℚ) 1 2))).zoom :=
  ⟨rfl, C4_zoom_never_below_limit (id : ℚ → ℚ) 800 600
    [Ev.mouseDown 1 2, Ev.mouseUp, Ev.touchEnd]
    (touch_end (mouse_up (mouse_down init_state 1 2))) rfl⟩

/-- Claim C5: after every pan update each offset axis is clamped to
`[-PAN_LIMIT, PAN_LIMIT]` with `PAN_LIMIT = 1 / ZOOM_OUT_LIMIT`, so in
every state reachable from the initial state by navigation events,
`|offsetX| ≤ PAN_LIMIT` and `|offsetY| ≤ PAN_LIMIT`. -/
theorem C5_offsets_clamped (sqrt : α → α) (W H : α)
    (es : List (Ev α)) (s : AppState α)
    (h : run sqrt W H init_state es = some s) :
    |s.offsetX| ≤ PAN_LIMIT ∧ |s.offsetY| ≤ PAN_LIMIT := by
  refine run_offset sqrt W H init_state s es h ?_ ?_ <;>
    · show |(0 : α)| ≤ PAN_LIMIT
      rw [abs_zero, PAN_LIMIT_eq]
      norm_num

/-- Witness for C5: a concrete event sequence over `ℚ`. -/
theorem C5_witness :
    run (id : ℚ → ℚ) 800 600 init_state [Ev.keyDown true, Ev.keyUp false] =
      some (key_up (key_down init_state true) false) ∧
    (|(key_up (key_down (init_state : AppState ℚ) true) false).offsetX| ≤
        PAN_LIMIT ∧
      |(key_up (key_down (init_state : AppState ℚ) true) false).offsetY| ≤
        PAN_LIMIT) :=
  ⟨rfl, C5_offsets_clamped (id : ℚ → ℚ) 800 600
    [Ev.keyDown true, Ev.keyUp false]
    (key_up (key_down init_state true) false) rfl⟩

lemma Matrix_default_one : (Matrix_default : Matrix (Fin 4) (Fin 4) α) = 1 := by
  unfold Matrix_default
  ext i j
  fin_cases i <;> fin_cases j <;>
    simp [Matrix.one_apply, Matrix.vecHead, Matrix.vecTail]

/-- Claim C6: for every view state (`zoom > 0`) and viewport, the MVP of
`mandelbrot_draw` is the identity right-multiplied by a uniform x/y scale
by `1/zoom`, then a translation by `(offsetX, offsetY)`, then an
orthographic matrix with x-diagonal `2/viewportHeight` and y-diagonal
`2/viewportWidth` (the deliberate height/width cross-use); the scaling
term applied to x and y equals `1/zoom`. -/
theorem C6_mvp_composition (offsetX offsetY zoom W H : α) (_hz : 0 < zoom) :
    mandelbrot_draw_mvp zoom offsetX offsetY W H =
      computeMVP_spec offsetX offsetY zoom W H ∧
    scale_spec zoom 0 0 = 1 / zoom ∧ scale_spec zoom 1 1 = 1 / zoom := by
  refine ⟨?_, ?_, ?_⟩
  · unfold mandelbrot_draw_mvp computeMVP_spec Matrix_orthographic
      Matrix_translate Matrix_scale ortho_spec translate_spec scale_spec
    rw [Matrix_default_one]
  · simp [scale_spec]
  · simp [scale_spec]

/-- Witness for C6: the composition law at a concrete view state. -/
theorem C6_witness :
    (0 : ℚ) < 1 ∧
    (mandelbrot_draw_mvp (1 : ℚ) 5 7 800 600 = computeMVP_spec 5 7 1 800 600 ∧
      scale_spec (1 : ℚ) 0 0 = 1 / 1 ∧ scale_spec (1 : ℚ) 1 1 = 1 / 1) :=
  ⟨by decide, C6_mvp_composition 5 7 1 800 600 (by decide)⟩

lemma mandelLoop_succ (cx cy x y : α) (iterations fuel : Nat) :
    mandelLoop cx cy x y iterations (fuel + 1) =
      if (x * x - y * y + cx) * (x * x - y * y + cx) +
          (2 * x * y + cy) * (2 * x * y + cy) ≥ ESCAPE then
        (iterations, x * x - y * y + cx, 2 * x * y + cy)
      else
        mandelLoop cx cy (x * x - y * y + cx) (2 * x * y + cy)
          (iterations + 1) fuel := rfl

lemma mandelbrot_at_two_two : mandelbrot (2 : α) 2 = (2, -94, 42) := by
  have h1 : ¬ (((0 : α) * 0 - 0 * 0 + 2) * ((0 : α) * 0 - 0 * 0 + 2) +
      (2 * (0 : α) * 0 + 2) * (2 * (0 : α) * 0 + 2) ≥ ESCAPE) := by
    norm_num [ESCAPE]
  have h2 : ¬ (((2 : α) * 2 - 2 * 2 + 2) * ((2 : α) * 2 - 2 * 2 + 2) +
      (2 * (2 : α) * 2 + 2) * (2 * (2 : α) * 2 + 2) ≥ ESCAPE) := by
    norm_num [ESCAPE]
  have h3 : ((2 : α) * 2 - 10 * 10 + 2) * ((2 : α) * 2 - 10 * 10 + 2) +
      (2 * (2 : α) * 10 + 2) * (2 * (2 : α) * 10 + 2) ≥ ESCAPE := by
    norm_num [ESCAPE]
  show mandelLoop (2 : α) 2 0 0 0 (1023 + 1) = _
  rw [mandelLoop_succ, if_neg h1]
  norm_num
  show mandelLoop (2 : α) 2 2 2 1 (1022 + 1) = _
  rw [mandelLoop_succ, if_neg h2]
  norm_num
  show mandelLoop (2 : α) 2 2 10 2 (1021 + 1) = _
  rw [mandelLoop_succ, if_pos h3]
  norm_num

/-- Claim C3: for every input point, the pixel color of the fragment
shader is opaque black when the iteration count reaches `MAX_ITER = 1024`
without the escape condition firing, and otherwise is the ColorRamp
sampled at normalized position `paletteIndex * 5 / MAX_ITER`, with
`paletteIndex = iterations + 1 - smoothed`,
`smoothed = log(logzn / log 2) / log 2` and `logzn = log(|z|) / 2` for `z`
the iterate at loop exit. -/
theorem C3_coloring_policy (ramp : ℝ → Color ℝ) (cx cy : ℝ) :
    fragment_shader Real.sqrt Real.log ramp cx cy =
      pixelColor_spec Real.sqrt Real.log ramp cx cy := by
  simp only [fragment_shader, pixelColor_spec, paletteIndex_spec,
    smoothed_spec, logzn_spec, abs_z, magnitude, MAX_ITER, MAX, pow_two]

lemma mandelLoop_zero (cx cy x y : α) (iterations : Nat) :
    mandelLoop cx cy x y iterations 0 = (iterations, x, y) := rfl

/-- Counterexample for C2: under the shader's escape loop the point
`c = (2,2)` does NOT escape on iteration 1: after one loop pass
`z = (2,2)` with `x*x + y*y = 8 < ESCAPE` and the loop continues; the
recorded iteration count at the break is `2`, not `1`. -/
theorem C2_counterexample :
    (mandelbrot (2 : ℝ) 2).1 = 2 ∧ (mandelbrot (2 : ℝ) 2).1 ≠ 1 ∧
    mandelLoop (2 : ℝ) 2 0 0 0 1 = (1, 2, 2) ∧
    ((2 : ℝ) * 2 + 2 * 2 < ESCAPE) := by
  have h1 : ¬ (((0 : ℝ) * 0 - 0 * 0 + 2) * ((0 : ℝ) * 0 - 0 * 0 + 2) +
      (2 * (0 : ℝ) * 0 + 2) * (2 * (0 : ℝ) * 0 + 2) ≥ ESCAPE) := by
    norm_num [ESCAPE]
  refine ⟨by rw [mandelbrot_at_two_two], by rw [mandelbrot_at_two_two]; norm_num,
    ?_, by norm_num [ESCAPE]⟩
  show mandelLoop (2 : ℝ) 2 0 0 0 (0 + 1) = _
  rw [mandelLoop_succ, if_neg h1, mandelLoop_zero]
  norm_num

/-- Claim C2 as amended: `c = (2,2)` escapes with recorded iteration count
`2` (after one iteration `x*x + y*y = 8 < 1000`, so the loop continues past
iteration 1), the iterate at loop exit is `z = (-94, 42)`, and the color is
the ramp sampled at the position given by the smoothing formula with
`iterations = 2` and that `z`. -/
theorem C2_amended_escape (ramp : ℝ → Color ℝ) :
    fragment_shader Real.sqrt Real.log ramp 2 2 =
      ramp (paletteIndex_spec Real.sqrt Real.log 2 (-94) 42 * 5 /
        (MAX_ITER : ℝ)) ∧
    (mandelbrot (2 : ℝ) 2).1 = 2 ∧ mandelbrot (2 : ℝ) 2 = (2, -94, 42) := by
  refine ⟨?_, by rw [mandelbrot_at_two_two], mandelbrot_at_two_two⟩
  simp only [fragment_shader, mandelbrot_at_two_two]
  norm_num [MAX, MAX_ITER, magnitude, paletteIndex_spec, smoothed_spec,
    logzn_spec, abs_z]

lemma pan_scenario_offsetX :
    (mouse_move (800 : ℚ) 600 (mouse_down init_state 0 0) 100 0).offsetX =
      -250 := by
  norm_num [mouse_move, mouse_down, init_state, panlimit, PAN_LIMIT,
    ZOOM_OUT_LIMIT]

/-- Counterexample for C1: in the pan branch of `mouse_move` the x offset
is updated by `-dx * scale` with NO aspect-ratio division, so the drag
`(dx=100, dy=0)` from `{offset:(0,0), zoom:0.001}` at viewport `800x600`
changes `offsetX` by `-250`, not by
`-100 * (2/(0.001*800)) / (800/600) = -187.5` as the claim states. -/
theorem C1_counterexample :
    (mouse_move (800 : ℚ) 600 (mouse_down init_state 0 0) 100 0).offsetX =
        -250 ∧
    (-250 : ℚ) ≠ -100 * (2 / ((0.001 : ℚ) * 800)) / (800 / 600) :=
  ⟨pan_scenario_offsetX, by norm_num⟩

/-- Claim C1 as amended: for every pan-mode pointer-move event (modifier
not held, pointer down) with pointer position `(ex, ey)`, the controller
sets `offsetX` to `panlimit(offsetX - dx * scale)` (no aspect-ratio
division) and `offsetY` to `panlimit(offsetY + dy * scale * aspectRatio)`
with `dx = ex - lastX`, `dy = ey - lastY`, `scale = 2 / (zoom * W)` and
`aspectRatio = W / H`; in particular the scenario drag `(dx=100, dy=0)`
from `{offset:(0,0), zoom:0.001}` at viewport `800x600` sets `offsetX`
to `-250`. -/
theorem C1_pan_update_amended (W H : α) (s : AppState α) (ex ey : α)
    (hdown : s.mouseDown = true) (hshift : s.shift = false) :
    ((mouse_move W H s ex ey).offsetX =
        panlimit (s.offsetX - (ex - s.lastX) * (2 / s.zoom / W)) ∧
      (mouse_move W H s ex ey).offsetY =
        panlimit (s.offsetY + (ey - s.lastY) * (2 / s.zoom / W) * (W / H))) ∧
    (mouse_move (800 : ℚ) 600 (mouse_down init_state 0 0) 100 0).offsetX =
      -250 := by
  refine ⟨?_, pan_scenario_offsetX⟩
  unfold mouse_move
  simp only [hdown, hshift, if_true, if_false]
  exact ⟨rfl, rfl⟩

/-- Witness for C1 (amended): the pan formula applied at the concrete
scenario state. -/
theorem C1_witness :
    ((mouse_down (init_state : AppState ℚ) 0 0).mouseDown = true ∧
      (mouse_down (init_state : AppState ℚ) 0 0).shift = false) ∧
    (((mouse_move (800 : ℚ) 600 (mouse_down init_state 0 0) 100 0).offsetX =
        panlimit ((mouse_down (init_state : AppState ℚ) 0 0).offsetX -
          (100 - (mouse_down (init_state : AppState ℚ) 0 0).lastX) *
            (2 / (mouse_down (init_state : AppState ℚ) 0 0).zoom / 800)) ∧
      (mouse_move (800 : ℚ) 600 (mouse_down init_state 0 0) 100 0).offsetY =
        panlimit ((mouse_down (init_state : AppState ℚ) 0 0).offsetY +
          (0 - (mouse_down (init_state : AppState ℚ) 0 0).lastY) *
            (2 / (mouse_down (init_state : AppState ℚ) 0 0).zoom / 800) *
            (800 / 600))) ∧
    (mouse_move (800 : ℚ) 600 (mouse_down init_state 0 0) 100 0).offsetX =
      -250) :=
  ⟨⟨rfl, rfl⟩,
    C1_pan_update_amended 800 600 (mouse_down init_state 0 0) 100 0 rfl rfl⟩

lemma mouse_move_flags (W H : α) (s : AppState α) (ex ey : α) :
    (mouse_move W H s ex ey).mouseDown = s.mouseDown ∧
    (mouse_move W H s ex ey).pinchDown = s.pinchDown ∧
    (mouse_move W H s ex ey).shift = s.shift := by
  unfold mouse_move
  by_cases h1 : s.mouseDown <;> by_cases h2 : s.shift <;> simp [h1, h2]

lemma step_flags (sqrt : α → α) (W H : α) (s s' : AppState α) (e : Ev α)
    (he : e.isMouseDown = false) (h : step sqrt W H s e = some s')
    (hf : ¬(s.mouseDown = true ∧ s.pinchDown = true)) :
    ¬(s'.mouseDown = true ∧ s'.pinchDown = true) := by
  cases e with
  | mouseDown x y => simp [Ev.isMouseDown] at he
  | mouseUp =>
    simp only [step, Option.some.injEq] at h
    rw [← h]; simp [mouse_up]
  | mouseMove x y =>
    simp only [step, Option.some.injEq] at h
    rw [← h]
    obtain ⟨h1, h2, _⟩ := mouse_move_flags W H s x y
    rw [h1, h2]; exact hf
  | keyDown a =>
    simp only [step, Option.some.injEq] at h
    rw [← h]; simpa [key_down] using hf
  | keyUp k =>
    simp only [step, Option.some.injEq] at h
    rw [← h]; simpa [key_up] using hf
  | touchStart ts =>
    simp only [step, Option.some.injEq] at h
    rw [← h]
    unfold touch_start
    rcases ts with _ | ⟨t0, _ | ⟨t1, _ | _⟩⟩
    · simpa using hf
    · simp
    · simp
    · simpa using hf
  | touchMove ts =>
    unfold step touch_move at h
    split_ifs at h with h1 h2
    · rcases ts with _ | ⟨t0, rest⟩
      · exact absurd h (by simp)
      · simp only [Option.some.injEq] at h
        rw [← h]
        obtain ⟨g1, g2, _⟩ := mouse_move_flags W H s t0.1 t0.2
        rw [g1, g2]; exact hf
    · rcases ts with _ | ⟨t0, _ | ⟨t1, rest⟩⟩
      · exact absurd h (by simp)
      · exact absurd h (by simp)
      · simp only [Option.some.injEq] at h
        rw [← h]; simpa using hf
    · simp only [Option.some.injEq] at h
      rw [← h]; exact hf
  | touchEnd =>
    simp only [step, Option.some.injEq] at h
    rw [← h]; simp [touch_end]

lemma run_flags (sqrt : α → α) (W H : α) (s s' : AppState α)
    (es : List (Ev α)) (hes : es.all (fun e => ! e.isMouseDown) = true)
    (h : run sqrt W H s es = some s')
    (hf : ¬(s.mouseDown = true ∧ s.pinchDown = true)) :
    ¬(s'.mouseDown = true ∧ s'.pinchDown = true) := by
  induction es generalizing s with
  | nil =>
    simp only [run, Option.some.injEq] at h
    rw [← h]; exact hf
  | cons e es ih =>
    simp only [List.all_cons, Bool.and_eq_true, Bool.not_eq_true'] at hes
    unfold run at h
    cases hstep : step sqrt W H s e with
    | none => rw [hstep] at h; exact absurd h (by simp)
    | some s1 =>
      rw [hstep] at h
      refine ih s1 ?_ h (step_flags sqrt W H s s1 e hes.1 hstep hf)
      simp only [List.all_eq_true] at hes ⊢
      exact fun x hx => hes.2 x hx

/-- Counterexample for C7: the pan and pinch flags CAN both be true at
once — a mouse-down during an active pinch sets the pan flag without
clearing the pinch flag — and a pointer-up resets only the pan flag,
leaving the pinch flag set. -/
theorem C7_counterexample :
    ((run Real.sqrt 800 600 init_state
        [Ev.touchStart [(0, 0), (3, 4)], Ev.mouseDown 0 0]).map
      fun s => (s.mouseDown, s.pinchDown)) = some (true, true) ∧
    ((run Real.sqrt 800 600 init_state
        [Ev.touchStart [(0, 0), (3, 4)], Ev.mouseDown 0 0, Ev.mouseUp]).map
      fun s => (s.mouseDown, s.pinchDown)) = some (false, true) :=
  ⟨rfl, rfl⟩

/-- Claim C7 as amended: in every state reachable from the initial state
by a sequence of input events containing no mouse-down event, the
single-pointer pan flag and the pinch flag are never both true; touch-end
resets both flags to false, while pointer-up resets only the pan flag
(the pinch flag is left unchanged). -/
theorem C7_flags_amended (sqrt : α → α) (W H : α)
    (es : List (Ev α)) (s : AppState α)
    (hes : es.all (fun e => ! e.isMouseDown) = true)
    (h : run sqrt W H init_state es = some s) :
    ¬(s.mouseDown = true ∧ s.pinchDown = true) ∧
    (∀ t : AppState α,
      (touch_end t).mouseDown = false ∧ (touch_end t).pinchDown = false) ∧
    (∀ t : AppState α,
      (mouse_up t).mouseDown = false ∧ (mouse_up t).pinchDown = t.pinchDown) :=
  ⟨run_flags sqrt W H init_state s es hes h (by simp [init_state]),
   fun t => ⟨rfl, rfl⟩, fun t => ⟨rfl, rfl⟩⟩

/-- Witness for C7 (amended): a concrete pinch-start sequence over `ℚ`. -/
theorem C7_witness :
    ([Ev.touchStart [((0 : ℚ), 0), (3, 4)]].all
        (fun e => ! e.isMouseDown) = true) ∧
    run (id : ℚ → ℚ) 800 600 init_state [Ev.touchStart [(0, 0), (3, 4)]] =
      some (touch_start id init_state [(0, 0), (3, 4)]) ∧
    (¬((touch_start (id : ℚ → ℚ) init_state [(0, 0), (3, 4)]).mouseDown = true ∧
        (touch_start (id : ℚ → ℚ) init_state [(0, 0), (3, 4)]).pinchDown = true) ∧
      (∀ t : AppState ℚ,
        (touch_end t).mouseDown = false ∧ (touch_end t).pinchDown = false) ∧
      (∀ t : AppState ℚ,
        (mouse_up t).mouseDown = false ∧ (mouse_up t).pinchDown = t.pinchDown)) :=
  ⟨rfl, rfl,
    C7_flags_amended (id : ℚ → ℚ) 800 600 [Ev.touchStart [(0, 0), (3, 4)]]
      (touch_start id init_state [(0, 0), (3, 4)]) rfl rfl⟩

/-- Counterexample for C8: a pinch-mode move event carrying a single touch
point is NOT silently ignored — `touch_move` dereferences the missing
`touches[1]` and throws (embedded as `none`), instead of completing and
leaving the state as it was. -/
theorem C8_counterexample :
    touch_move Real.sqrt 800 600
        (touch_start Real.sqrt init_state [(0, 0), (3, 4)]) [(1, 1)] = none ∧
    (touch_start Real.sqrt init_state [(0, 0), (3, 4)]).pinchDown = true ∧
    touch_move Real.sqrt 800 600
        (touch_start Real.sqrt init_state [(0, 0), (3, 4)]) [(1, 1)] ≠
      some (touch_start Real.sqrt init_state [(0, 0), (3, 4)]) :=
  ⟨rfl, rfl, fun hc => Option.noConfusion hc⟩

/-- Claim C8 as amended: a pinch-mode move event with fewer than two touch
points makes the handler throw a `TypeError` on the missing touch before
any state mutation (the view and gesture state at the throw are exactly
the pre-event state, but the event is not silently ignored); an event
reaching neither the pan branch nor the pinch branch leaves the state
exactly unchanged. -/
theorem C8_degenerate_pinch_amended (sqrt : α → α) (W H : α)
    (s : AppState α) (ts : List (α × α)) (hlen : ts.length < 2) :
    touch_move sqrt W H { s with mouseDown := false, pinchDown := true }
        ts = none ∧
    (∀ ts2 : List (α × α),
      touch_move sqrt W H { s with mouseDown := false, pinchDown := false }
          ts2 =
        some { s with mouseDown := false, pinchDown := false }) := by
  constructor
  · unfold touch_move
    rcases ts with _ | ⟨t0, _ | ⟨t1, r⟩⟩
    · simp
    · simp
    · exfalso
      rw [List.length_cons, List.length_cons] at hlen
      omega
  · intro ts2
    unfold touch_move
    simp

/-- Witness for C8 (amended): the empty touch list during a pinch. -/
theorem C8_witness :
    (([] : List (ℚ × ℚ)).length < 2) ∧
    (touch_move (id : ℚ → ℚ) 800 600
        { init_state with mouseDown := false, pinchDown := true }
        ([] : List (ℚ × ℚ)) = none ∧
      (∀ ts2 : List (ℚ × ℚ),
        touch_move (id : ℚ → ℚ) 800 600
            { init_state with mouseDown := false, pinchDown := false } ts2 =
          some { init_state with mouseDown := false, pinchDown := false })) :=
  ⟨by decide,
    C8_degenerate_pinch_amended (id : ℚ → ℚ) 800 600 init_state [] (by decide)⟩

lemma scheduleFrameN_eq (n pending : Nat) :
    scheduleFrameN n pending = pending + n := by
  induction n generalizing pending with
  | zero => simp [scheduleFrameN]
  | succ k ih =>
    rw [scheduleFrameN, requestRender, ih]
    omega

/-- Counterexample for C9: two redraw requests within one frame interval
produce two executions of the draw call at the next frame opportunity,
not one — `requestAnimationFrame` registers its callback each time and
does not coalesce. -/
theorem C9_counterexample :
    drawsAtNextFrame (scheduleFrameN 2 0) = 2 ∧
    drawsAtNextFrame (scheduleFrameN 2 0) ≠ 1 := by
  constructor <;> decide

/-- Claim C9 as amended: issuing the redraw request `N >= 1` times within
one frame interval results in exactly `N` executions of the draw call at
the next frame opportunity (at least one); redundant requests are NOT
coalesced by the code, which registers one `render` callback per request
with the host's `requestAnimationFrame`. -/
theorem C9_redraw_amended (n : Nat) (h : 1 ≤ n) :
    drawsAtNextFrame (scheduleFrameN n 0) = n ∧
    1 ≤ drawsAtNextFrame (scheduleFrameN n 0) := by
  have he : scheduleFrameN n 0 = n := by rw [scheduleFrameN_eq]; omega
  exact ⟨by rw [drawsAtNextFrame, he], by rw [drawsAtNextFrame, he]; exact h⟩

/-- Witness for C9 (amended): three requests give three draws. -/
theorem C9_witness :
    (1 ≤ 3) ∧
    (drawsAtNextFrame (scheduleFrameN 3 0) = 3 ∧
      1 ≤ drawsAtNextFrame (scheduleFrameN 3 0)) :=
  ⟨by decide, C9_redraw_amended 3 (by decide)⟩

/-- Claim C10: a pan-mode pointer move (modifier flag false) leaves the
zoom and the pinch state unchanged; a zoom-mode pointer move (modifier
flag true) leaves both offsets and the pinch state unchanged; a
touch-move with the pan flag clear (in particular a pinch move) leaves
both offsets, the last-pointer fields and the gesture flags unchanged —
each mode mutates only its own view-state fields plus its tracking
fields.  (A state whose modifier flag is false is exactly a state of the
form `{ s with shift := false }`, and similarly for the other side
conditions, so the record updates below quantify over all such states.) -/
theorem C10_mode_frame_effects (sqrt : α → α) (W H : α) (s : AppState α)
    (ex ey : α) (ts : List (α × α)) :
    ((mouse_move W H { s with shift := false } ex ey).zoom = s.zoom ∧
      (mouse_move W H { s with shift := false } ex ey).pinchDown =
        s.pinchDown ∧
      (mouse_move W H { s with shift := false } ex ey).pinchDistance =
        s.pinchDistance ∧
      (mouse_move W H { s with shift := false } ex ey).mouseDown =
        s.mouseDown) ∧
    ((mouse_move W H { s with shift := true } ex ey).offsetX = s.offsetX ∧
      (mouse_move W H { s with shift := true } ex ey).offsetY = s.offsetY ∧
      (mouse_move W H { s with shift := true } ex ey).pinchDown =
        s.pinchDown ∧
      (mouse_move W H { s with shift := true } ex ey).pinchDistance =
        s.pinchDistance ∧
      (mouse_move W H { s with shift := true } ex ey).mouseDown =
        s.mouseDown) ∧
    ((touch_move sqrt W H { s with mouseDown := false } ts).elim True
      (fun s2 => s2.offsetX = s.offsetX ∧ s2.offsetY = s.offsetY ∧
        s2.lastX = s.lastX ∧ s2.lastY = s.lastY ∧
        s2.mouseDown = false ∧ s2.pinchDown = s.pinchDown ∧
        s2.shift = s.shift)) := by
  refine ⟨?_, ?_, ?_⟩
  · unfold mouse_move
    by_cases h1 : s.mouseDown <;> simp [h1]
  · unfold mouse_move
    by_cases h1 : s.mouseDown <;> simp [h1]
  · unfold touch_move
    by_cases hp : s.pinchDown <;>
      rcases ts with _ | ⟨t0, _ | ⟨t1, r⟩⟩ <;> simp [hp]

/-- Witness for C2 (amended): the escape data of `c = (2,2)` at a concrete
ramp. -/
theorem C2_witness :
    fragment_shader Real.sqrt Real.log (fun p => (p, p, p, 1)) 2 2 =
      (fun p => ((p : ℝ), p, p, 1))
        (paletteIndex_spec Real.sqrt Real.log 2 (-94) 42 * 5 /
          (MAX_ITER : ℝ)) ∧
    (mandelbrot (2 : ℝ) 2).1 = 2 ∧ mandelbrot (2 : ℝ) 2 = (2, -94, 42) :=
  C2_amended_escape (fun p => (p, p, p, 1))

/-- Witness for C3: the coloring policy at a concrete point and ramp. -/
theorem C3_witness :
    fragment_shader Real.sqrt Real.log (fun p => (p, p, p, 1)) 1 1 =
      pixelColor_spec Real.sqrt Real.log (fun p => (p, p, p, 1)) 1 1 :=
  C3_coloring_policy (fun p => (p, p, p, 1)) 1 1

/-- Witness for C10: the frame conditions at a concrete state and inputs. -/
theorem C10_witness :
    ((mouse_move (800 : ℚ) 600 { init_state with shift := false } 1 2).zoom =
        (init_state : AppState ℚ).zoom ∧
      (mouse_move (800 : ℚ) 600 { init_state with shift := false } 1
            2).pinchDown =
        (init_state : AppState ℚ).pinchDown ∧
      (mouse_move (800 : ℚ) 600 { init_state with shift := false } 1
            2).pinchDistance =
        (init_state : AppState ℚ).pinchDistance ∧
      (mouse_move (800 : ℚ) 600 { init_state with shift := false } 1
            2).mouseDown =
        (init_state : AppState ℚ).mouseDown) ∧
    ((mouse_move (800 : ℚ) 600 { init_state with shift := true } 1 2).offsetX =
        (init_state : AppState ℚ).offsetX ∧
      (mouse_move (800 : ℚ) 600 { init_state with shift := true } 1
            2).offsetY =
        (init_state : AppState ℚ).offsetY ∧
      (mouse_move (800 : ℚ) 600 { init_state with shift := true } 1
            2).pinchDown =
        (init_state : AppState ℚ).pinchDown ∧
      (mouse_move (800 : ℚ) 600 { init_state with shift := true } 1
            2).pinchDistance =
        (init_state : AppState ℚ).pinchDistance ∧
      (mouse_move (800 : ℚ) 600 { init_state with shift := true } 1
            2).mouseDown =
        (init_state : AppState ℚ).mouseDown) ∧
    ((touch_move (id : ℚ → ℚ) 800 600 { init_state with mouseDown := false }
        []).elim True
      (fun s2 => s2.offsetX = (init_state : AppState ℚ).offsetX ∧
        s2.offsetY = (init_state : AppState ℚ).offsetY ∧
        s2.lastX = (init_state : AppState ℚ).lastX ∧
        s2.lastY = (init_state : AppState ℚ).lastY ∧
        s2.mouseDown = false ∧
        s2.pinchDown = (init_state : AppState ℚ).pinchDown ∧
        s2.shift = (init_state : AppState ℚ).shift)) :=
  C10_mode_frame_effects (id : ℚ → ℚ) 800 600 init_state 1 2 []

end MandelbrotApp
